import Mathlib

/-!
Shallow embedding of the trace-context codec of this repository:
the pydantic value type BaseTraceContext together with DummyTraceContext
(src/aiozipkin/spancontext/__init__.py) and the Jaeger single-header codec
JaegerConst.make_trace_id / parse_trace_id / make_headers / make_context
(src/aiojaeger/spancontext/jaeger.py).

Modelling conventions:
- Python str is Lean String; a header mapping (Dict[str, str]) is an
  association list in which a later entry with the same key overwrites an
  earlier one, so lookups take the last matching pair.
- Python int is Lean Int.  The pydantic model declares trace_id, span_id
  and parent_id as str fields, and pydantic v1 coerces an int argument to
  str via its decimal representation; the embedding therefore stores
  String fields and converts with toString.
- Python raising is an Except value: every raise site in parse_trace_id
  raises ValueError, a failed dict lookup raises KeyError, and the except
  clause of make_context catches exactly those two classes.
- Python int(s, 16) is pyIntHex, including its tolerance for surrounding
  whitespace, one leading sign, an optional 0x or 0X prefix, uppercase
  digits, and single underscores between digits.
- Python s.split(sep, maxsplit) performs at most maxsplit splits, so it can
  return maxsplit + 1 parts; splitCAux embeds that semantics for a
  one-character separator.
-/

namespace AiozipkinSpec

/-- Header mapping: Python Dict[str, str] as an insertion-ordered
association list (last write to a key wins). -/
abbrev Headers : Type := List (String × String)

/-- The pydantic model BaseTraceContext of src/aiozipkin/spancontext.
Fields trace_id and span_id are declared str, parent_id is Optional[str],
sampled is Optional[bool], debug and shared are bool. -/
structure BaseTraceContext where
  trace_id : String
  span_id : String
  parent_id : Option String
  sampled : Option Bool
  debug : Bool
  shared : Bool
deriving DecidableEq, Repr

/-- Python exception classes that the embedded code can raise. otherError
stands for any exception class other than ValueError and KeyError; it is
never raised by the embedded code, and the except clause of make_context
does not catch it. -/
inductive PyExn where
  | valueError
  | keyError
  | otherError
deriving DecidableEq, Repr

/-- JaegerConst.TRACE_ID_HEADER. -/
def TRACE_ID_HEADER : String := "uber-trace-id"

/-- JaegerConst.SAMPLED_FLAG. -/
def SAMPLED_FLAG : Nat := 0x01

/-- JaegerConst.DEBUG_FLAG. -/
def DEBUG_FLAG : Nat := 0x02

/-- Python truthiness of an Optional[bool]: None and False are falsy. -/
def pyTruthy (o : Option Bool) : Bool := o.getD false

/-- Python str() of an Optional[str] as interpolated by an f-string:
None prints as the string None. -/
def pyStrOpt : Option String → String
  | none => "None"
  | some s => s

/-- Python s.split(c, maxsplit) on a one-character separator, working on
the character list: at most n splits are performed, and once the budget is
exhausted the whole remainder forms the final part. -/
def splitCAux (sepc : Char) : Nat → List Char → List Char → List (List Char)
  | _, acc, [] => [acc.reverse]
  | 0, acc, c :: cs => [acc.reverse ++ c :: cs]
  | n + 1, acc, c :: cs =>
    if c = sepc then acc.reverse :: splitCAux sepc n [] cs
    else splitCAux sepc (n + 1) (c :: acc) cs

/-- Python s.split(segment separator colon, maxsplit n). -/
def pySplitColon (n : Nat) (s : String) : List String :=
  (splitCAux ':' n [] s.data).map String.mk

/-- Whitespace stripped by Python int() around the digits (ASCII part). -/
def isPySpace (c : Char) : Bool :=
  c = ' ' || c = '\t' || c = '\n' || c = '\r' || c = '\x0b' || c = '\x0c'

/-- Value of one hexadecimal digit as accepted by Python int(s, 16). -/
def hexDigitVal (c : Char) : Option Nat :=
  if '0' ≤ c ∧ c ≤ '9' then some (c.toNat - '0'.toNat)
  else if 'a' ≤ c ∧ c ≤ 'f' then some (c.toNat - 'a'.toNat + 10)
  else if 'A' ≤ c ∧ c ≤ 'F' then some (c.toNat - 'A'.toNat + 10)
  else none

/-- Digit-sequence loop of Python int(s, 16): uOk records whether an
underscore may appear at the current position (after a digit or right
after the 0x prefix), endOk whether the sequence may stop here (a digit
has just been read). -/
def hexLoop : Nat → Bool → Bool → List Char → Option Nat
  | acc, _, endOk, [] => if endOk then some acc else none
  | acc, uOk, _, c :: cs =>
    if c = '_' then
      if uOk then hexLoop acc false false cs else none
    else
      match hexDigitVal c with
      | some d => hexLoop (acc * 16 + d) true true cs
      | none => none

/-- Python int(s, 16): strip surrounding whitespace, allow one sign, an
optional 0x or 0X prefix, then hexadecimal digits with single underscores
between them; any other shape raises ValueError, modelled as none. -/
def pyIntHex (s : String) : Option Int :=
  let cs := ((s.data.dropWhile isPySpace).reverse.dropWhile isPySpace).reverse
  let signed : Int × List Char :=
    match cs with
    | '+' :: r => (1, r)
    | '-' :: r => (-1, r)
    | r => (1, r)
  let pref : Bool × List Char :=
    match signed.2 with
    | '0' :: 'x' :: r => (true, r)
    | '0' :: 'X' :: r => (true, r)
    | r => (false, r)
  (hexLoop 0 pref.1 false pref.2).map (fun n => signed.1 * (n : Int))

/-- Field-count check, per-field hex conversion and value validation of
JaegerConst.parse_trace_id, applied to the already split parts.  Every
failure in the source raises ValueError. -/
def parseFour : List String → Except PyExn (Int × Int × Int × Int)
  | [a, b, c, d] =>
    match pyIntHex a, pyIntHex b, pyIntHex c, pyIntHex d with
    | some t, some sp, some p, some f =>
      if t ≤ 0 ∨ sp ≤ 0 then Except.error PyExn.valueError
      else if p < 0 ∨ f < 0 then Except.error PyExn.valueError
      else Except.ok (t, sp, p, f)
    | _, _, _, _ => Except.error PyExn.valueError
  | _ => Except.error PyExn.valueError

/-- JaegerConst.parse_trace_id: split the header value on the colon with
maxsplit 4, require exactly 4 parts, convert each with int(part, 16), and
require trace_id > 0, span_id > 0, parent_id >= 0, flags >= 0. -/
def parse_trace_id (s : String) : Except PyExn (Int × Int × Int × Int) :=
  parseFour (pySplitColon 4 s)

/-- Flag computation of JaegerConst.make_trace_id: flags = 0; the debug
bit is set when c.debug is truthy, the sampled bit when c.sampled is. -/
def jaegerFlags (c : BaseTraceContext) : Nat :=
  let f1 := if c.debug then 0 ||| DEBUG_FLAG else 0
  if pyTruthy c.sampled then f1 ||| SAMPLED_FLAG else f1

/-- JaegerConst.make_trace_id: the f-string interpolation
trace_id:span_id:parent_id:flags, the first three fields taken verbatim
from the (string-typed) context and flags printed in decimal. -/
def make_trace_id (c : BaseTraceContext) : String :=
  c.trace_id ++ ":" ++ c.span_id ++ ":" ++ pyStrOpt c.parent_id ++ ":"
    ++ toString (jaegerFlags c)

/-- JaegerConst.make_headers: a one-entry dict. -/
def make_headers (c : BaseTraceContext) : Headers :=
  [(TRACE_ID_HEADER, make_trace_id c)]

/-- Python str.lower() on the ASCII header names this codec handles:
each character is lowercased individually. -/
def pyLower (s : String) : String :=
  String.mk (s.data.map Char.toLower)

/-- The dict comprehension of make_context that lowercases every key. -/
def lowerKeys (h : Headers) : Headers :=
  h.map (fun p => (pyLower p.1, p.2))

/-- Python dict lookup on the association-list model: the value of the
last pair carrying the key, since later writes overwrite earlier ones. -/
def dictLookup (h : Headers) (k : String) : Option String :=
  ((h.filter (fun p => p.1 = k)).getLast?).map Prod.snd

/-- Body of the try block of JaegerConst.make_context: dict lookup of the
trace header (KeyError when missing) followed by parse_trace_id. -/
def decodeAttempt (lowered : Headers) : Except PyExn (Int × Int × Int × Int) :=
  match dictLookup lowered TRACE_ID_HEADER with
  | none => Except.error PyExn.keyError
  | some v => parse_trace_id v

/-- Context construction at the end of JaegerConst.make_context: pydantic
coerces the int arguments to decimal strings, sampled and debug are
bool(flags AND bit); parse_trace_id guarantees flags >= 0, so toNat is
exact. -/
def ctxOfParts : Int × Int × Int × Int → BaseTraceContext
  | (t, sp, p, f) =>
    { trace_id := toString t
      span_id := toString sp
      parent_id := some (toString p)
      sampled := some (f.toNat &&& SAMPLED_FLAG != 0)
      debug := (f.toNat &&& DEBUG_FLAG != 0)
      shared := false }

/-- JaegerConst.make_context with exception propagation made explicit:
the except clause catches exactly ValueError and KeyError and returns
None for them; any other exception class would propagate as an error. -/
def make_contextE (headers : Headers) : Except PyExn (Option BaseTraceContext) :=
  match decodeAttempt (lowerKeys headers) with
  | Except.ok q => Except.ok (some (ctxOfParts q))
  | Except.error PyExn.valueError => Except.ok none
  | Except.error PyExn.keyError => Except.ok none
  | Except.error PyExn.otherError => Except.error PyExn.otherError

/-- JaegerConst.make_context as observed by callers: a context on
success, None when the try block raised ValueError or KeyError. -/
def make_context (headers : Headers) : Option BaseTraceContext :=
  match decodeAttempt (lowerKeys headers) with
  | Except.ok q => some (ctxOfParts q)
  | Except.error _ => none

/-- DummyTraceContext.make_headers: always the empty dict. -/
def dummy_make_headers : Headers := []

/-- DummyTraceContext.make_context with explicit sampled argument:
ignores the headers and returns the fixed dummy context. -/
def dummy_make_context (_headers : Headers) (sampled : Bool) : BaseTraceContext :=
  { trace_id := "dummy-trace-id"
    span_id := "dummy-span-id"
    parent_id := some "dummy-parent-id"
    sampled := some sampled
    debug := false
    shared := false }

/-- DummyTraceContext.make_context at the default sampled=True. -/
def dummy_make_context_default (headers : Headers) : BaseTraceContext :=
  dummy_make_context headers true

/-- Number of colons in a string. -/
def colonCount (s : String) : Nat := s.data.count ':'

/-- The substring after the last colon of a string (the whole string when
it has no colon). -/
def afterLastColon (s : String) : String :=
  String.mk (((s.data.reverse).takeWhile (fun ch => ch != ':')).reverse)

/-! Helper lemmas about the capped split, the parser and string appends. -/

theorem splitCAux_length (sepc : Char) :
    ∀ (cs acc : List Char) (n : Nat),
      (splitCAux sepc n acc cs).length = min (cs.count sepc) n + 1 := by
  intro cs
  induction cs with
  | nil => intro acc n; simp [splitCAux]
  | cons c cs ih =>
    intro acc n
    cases n with
    | zero => simp [splitCAux]
    | succ n =>
      by_cases hc : c = sepc
      · subst hc
        simp [splitCAux, ih, List.count_cons, Nat.succ_min_succ]
      · simp [splitCAux, hc, ih, List.count_cons]

theorem splitCAux_sep (sepc : Char) :
    ∀ (a acc rest : List Char) (n : Nat), sepc ∉ a →
      splitCAux sepc (n + 1) acc (a ++ sepc :: rest)
        = (acc.reverse ++ a) :: splitCAux sepc n [] rest := by
  intro a
  induction a with
  | nil => intro acc rest n _; simp [splitCAux]
  | cons x xs ih =>
    intro acc rest n hmem
    have hx : ¬x = sepc := fun h => hmem (h ▸ List.mem_cons_self x xs)
    simp only [List.cons_append, splitCAux, if_neg hx, List.append_eq]
    rw [ih (x :: acc) rest n (fun h => hmem (List.mem_cons_of_mem x h))]
    simp

theorem splitCAux_no_sep (sepc : Char) :
    ∀ (a acc : List Char) (n : Nat), sepc ∉ a →
      splitCAux sepc n acc a = [acc.reverse ++ a] := by
  intro a
  induction a with
  | nil => intro acc n _; cases n <;> simp [splitCAux]
  | cons x xs ih =>
    intro acc n hmem
    have hx : ¬x = sepc := fun h => hmem (h ▸ List.mem_cons_self x xs)
    cases n with
    | zero => simp [splitCAux]
    | succ n =>
      simp only [splitCAux, if_neg hx, List.append_eq]
      rw [ih (x :: acc) (n + 1) (fun h => hmem (List.mem_cons_of_mem x h))]
      simp

theorem colon_string_data : (":" : String).data = [':'] := rfl

theorem pySplitColon_four (a b c d : String)
    (ha : ':' ∉ a.data) (hb : ':' ∉ b.data) (hc : ':' ∉ c.data)
    (hd2 : ':' ∉ d.data) :
    pySplitColon 4 (a ++ ":" ++ b ++ ":" ++ c ++ ":" ++ d) = [a, b, c, d] := by
  have hdata : (a ++ ":" ++ b ++ ":" ++ c ++ ":" ++ d).data
      = a.data ++ ':' :: (b.data ++ ':' :: (c.data ++ ':' :: d.data)) := by
    simp [String.data_append, colon_string_data]
  unfold pySplitColon
  rw [hdata]
  rw [splitCAux_sep ':' a.data [] _ 3 ha]
  rw [splitCAux_sep ':' b.data [] _ 2 hb]
  rw [splitCAux_sep ':' c.data [] _ 1 hc]
  rw [splitCAux_no_sep ':' d.data [] 1 hd2]
  rfl

theorem pySplitColon_length (n : Nat) (s : String) :
    (pySplitColon n s).length = min (s.data.count ':') n + 1 := by
  unfold pySplitColon
  rw [List.length_map, splitCAux_length]

theorem parseFour_len (parts : List String) (h : parts.length ≠ 4) :
    parseFour parts = Except.error PyExn.valueError := by
  rcases parts with _ | ⟨a, _ | ⟨b, _ | ⟨c, _ | ⟨d, _ | ⟨x, tl⟩⟩⟩⟩⟩
  · rfl
  · rfl
  · rfl
  · rfl
  · exact absurd rfl h
  · rfl

theorem parseFour_ok (a b c d : String) (t sp p f : Int)
    (ha : pyIntHex a = some t) (hb : pyIntHex b = some sp)
    (hc : pyIntHex c = some p) (hd2 : pyIntHex d = some f)
    (ht : 0 < t) (hsp : 0 < sp) (hp : 0 ≤ p) (hf : 0 ≤ f) :
    parseFour [a, b, c, d] = Except.ok (t, sp, p, f) := by
  have h1 : ¬(t ≤ 0 ∨ sp ≤ 0) := by omega
  have h2 : ¬(p < 0 ∨ f < 0) := by omega
  simp [parseFour, ha, hb, hc, hd2, h1, h2]

theorem parseFour_error (parts : List String) (e : PyExn)
    (h : parseFour parts = Except.error e) : e = PyExn.valueError := by
  unfold parseFour at h
  split at h
  · split at h
    · split at h
      · injection h with h2; exact h2.symm
      · split at h
        · injection h with h2; exact h2.symm
        · exact Except.noConfusion h
    · injection h with h2; exact h2.symm
  · injection h with h2; exact h2.symm

theorem decodeAttempt_error (l : Headers) (e : PyExn)
    (h : decodeAttempt l = Except.error e) :
    e = PyExn.valueError ∨ e = PyExn.keyError := by
  unfold decodeAttempt at h
  split at h
  · injection h with h2; exact Or.inr h2.symm
  · unfold parse_trace_id at h
    exact Or.inl (parseFour_error _ _ h)

theorem trace_header_lower : pyLower TRACE_ID_HEADER = TRACE_ID_HEADER := by
  decide

theorem dictLookup_single (k v : String) : dictLookup [(k, v)] k = some v := by
  simp [dictLookup]

theorem make_context_header (v : String) :
    make_context [(TRACE_ID_HEADER, v)]
      = match parse_trace_id v with
        | Except.ok q => some (ctxOfParts q)
        | Except.error _ => none := by
  unfold make_context
  have h1 : lowerKeys [(TRACE_ID_HEADER, v)] = [(TRACE_ID_HEADER, v)] := by
    simp [lowerKeys, trace_header_lower]
  rw [h1]
  unfold decodeAttempt
  rw [dictLookup_single]

/-- C2: Jaeger decode never raises: for every header mapping, the
instrumented make_contextE returns an ok result, namely exactly the
Option value that make_context observes (a fully populated context or
None); no exception from lookup, parsing or validation escapes the
except clause of make_context. -/
theorem C2_never_raises (h : Headers) :
    make_contextE h = Except.ok (make_context h) := by
  unfold make_contextE make_context
  cases hd : decodeAttempt (lowerKeys h) with
  | ok q => rfl
  | error e =>
    rcases decodeAttempt_error _ _ hd with rfl | rfl
    · rfl
    · rfl

/-- C3 counterexample: the claim says the decode split yields at most 4
parts, the remainder folding into the last field; but the source calls
split with maxsplit 4, so the value with four colons splits into 5 parts
and the remainder does not fold into the fourth field. -/
theorem C3_counterexample :
    (pySplitColon 4 "1:2:3:4:5").length = 5 ∧
    pySplitColon 4 "1:2:3:4:5" ≠ ["1", "2", "3", "4:5"] := by
  decide

/-- C3 amended: decode splits the header value with at most 4 splits,
hence into at most 5 parts, and returns absent unless exactly 4 fields
result; in particular any header value whose colon count differs from 3
decodes to absent. -/
theorem C3_capped_split (v : String) (hv : colonCount v ≠ 3) :
    (pySplitColon 4 v).length ≤ 5 ∧
    make_context [(TRACE_ID_HEADER, v)] = none := by
  have hmin : (pySplitColon 4 v).length = min (v.data.count ':') 4 + 1 :=
    pySplitColon_length 4 v
  constructor
  · omega
  · rw [make_context_header]
    have hlen : (pySplitColon 4 v).length ≠ 4 := by
      unfold colonCount at hv
      omega
    unfold parse_trace_id
    rw [parseFour_len _ hlen]

/-- C3 witness: a value with a single colon splits into at most 5 parts
and decodes to absent. -/
theorem C3_capped_split_witness :
    (pySplitColon 4 "1:2").length ≤ 5 ∧
    make_context [(TRACE_ID_HEADER, "1:2")] = none :=
  C3_capped_split "1:2" (by decide)

/-- C4: rejection of malformed input: a 3-field value, a zero trace_id, a
non-hex field and a missing header each decode to absent; and in general
the decode of a 4-field value is absent whenever span_id parses to 0 or
the trace, span or parent field parses negative. -/
theorem C4_reject :
    make_context [("uber-trace-id", "1:2:3")] = none ∧
    make_context [("uber-trace-id", "0:2:3:1")] = none ∧
    make_context [("uber-trace-id", "g:2:3:1")] = none ∧
    make_context ([] : Headers) = none ∧
    ∀ (v a b c d : String) (t sp p f : Int),
      pySplitColon 4 v = [a, b, c, d] →
      pyIntHex a = some t → pyIntHex b = some sp →
      pyIntHex c = some p → pyIntHex d = some f →
      (sp = 0 ∨ t < 0 ∨ sp < 0 ∨ p < 0) →
      make_context [("uber-trace-id", v)] = none := by
  refine ⟨by decide, by decide, by decide, by decide, ?_⟩
  intro v a b c d t sp p f hsplit ha hb hc hd2 hbad
  show make_context [(TRACE_ID_HEADER, v)] = none
  rw [make_context_header]
  unfold parse_trace_id
  rw [hsplit]
  by_cases h1 : t ≤ 0 ∨ sp ≤ 0
  · simp [parseFour, ha, hb, hc, hd2, h1]
  · have h2 : p < 0 ∨ f < 0 := by omega
    simp [parseFour, ha, hb, hc, hd2, h1, h2]

/-- C4 witness: a value whose span field parses to 0 decodes to absent. -/
theorem C4_reject_witness :
    make_context [("uber-trace-id", "1:0:0:0")] = none :=
  C4_reject.2.2.2.2 "1:0:0:0" "1" "0" "0" "0" 1 0 0 0 (by decide) (by decide)
    (by decide) (by decide) (by decide) (Or.inl rfl)

theorem jaegerFlags_le (c : BaseTraceContext) : jaegerFlags c ≤ 3 := by
  unfold jaegerFlags DEBUG_FLAG SAMPLED_FLAG
  cases c.debug <;> cases pyTruthy c.sampled <;> decide

theorem flag_digit_colonfree (fl : Nat) (h : fl ≤ 3) :
    ':' ∉ (toString fl).data := by
  interval_cases fl <;> decide

theorem flag_digit_hex (fl : Nat) (h : fl ≤ 3) :
    pyIntHex (toString fl) = some (fl : Int) := by
  interval_cases fl <;> decide

theorem decode_of_encode_parts (tid sid pid : String) (t sp p : Int) (fl : Nat)
    (ht : pyIntHex tid = some t) (ht0 : 0 < t) (htc : ':' ∉ tid.data)
    (hs : pyIntHex sid = some sp) (hs0 : 0 < sp) (hsc : ':' ∉ sid.data)
    (hp : pyIntHex pid = some p) (hp0 : 0 ≤ p) (hpc : ':' ∉ pid.data)
    (hfl : fl ≤ 3) :
    make_context [(TRACE_ID_HEADER, tid ++ ":" ++ sid ++ ":" ++ pid ++ ":" ++ toString fl)]
      = some (ctxOfParts (t, sp, p, (fl : Int))) := by
  rw [make_context_header]
  unfold parse_trace_id
  rw [pySplitColon_four tid sid pid (toString fl) htc hsc hpc
    (flag_digit_colonfree fl hfl)]
  rw [parseFour_ok tid sid pid (toString fl) t sp p (fl : Int) ht hs hp
    (flag_digit_hex fl hfl) ht0 hs0 hp0 (by omega)]

theorem flags_bits (c : BaseTraceContext) :
    (((jaegerFlags c : Int)).toNat &&& SAMPLED_FLAG != 0) = pyTruthy c.sampled ∧
    (((jaegerFlags c : Int)).toNat &&& DEBUG_FLAG != 0) = c.debug := by
  unfold jaegerFlags DEBUG_FLAG SAMPLED_FLAG
  cases c.debug <;> cases pyTruthy c.sampled <;> exact (by decide)

/-- C1 counterexample: the context with trace_id the string 10 (positive
whether read as decimal or as hex), span_id 1 and parent_id 0 is valid,
yet decode of its encoding returns trace_id 16: the wire fields are
parsed as hex but the decoded context stores ids as decimal strings, so
the round trip does not preserve trace_id. -/
theorem C1_counterexample :
    make_context (make_headers
        { trace_id := "10", span_id := "1", parent_id := some "0",
          sampled := some true, debug := false, shared := false })
      = some
        { trace_id := "16", span_id := "1", parent_id := some "0",
          sampled := some true, debug := false, shared := false } ∧
    ("16" : String) ≠ "10" := by
  decide

/-- C1 amended: for every context whose trace_id, span_id and parent_id
are colon-free strings parsing under int(s, 16) to values t > 0, s > 0,
p >= 0, decode of encode yields a context whose ids are the decimal
representations of t, s and p (equal to the originals exactly when those
are single decimal digits), whose sampled is the truthiness of the
original sampled, whose debug equals the original debug, and whose
shared is false. -/
theorem C1_roundtrip (c : BaseTraceContext) (ps : String) (t sp p : Int)
    (hps : c.parent_id = some ps)
    (ht : pyIntHex c.trace_id = some t) (ht0 : 0 < t)
    (htc : ':' ∉ c.trace_id.data)
    (hs : pyIntHex c.span_id = some sp) (hs0 : 0 < sp)
    (hsc : ':' ∉ c.span_id.data)
    (hp : pyIntHex ps = some p) (hp0 : 0 ≤ p) (hpc : ':' ∉ ps.data) :
    make_context (make_headers c)
      = some { trace_id := toString t, span_id := toString sp,
               parent_id := some (toString p),
               sampled := some (pyTruthy c.sampled), debug := c.debug,
               shared := false } := by
  have hmk : make_headers c
      = [(TRACE_ID_HEADER,
          c.trace_id ++ ":" ++ c.span_id ++ ":" ++ ps ++ ":"
            ++ toString (jaegerFlags c))] := by
    unfold make_headers make_trace_id
    rw [hps]
    rfl
  rw [hmk]
  rw [decode_of_encode_parts c.trace_id c.span_id ps t sp p (jaegerFlags c)
    ht ht0 htc hs hs0 hsc hp hp0 hpc (jaegerFlags_le c)]
  simp only [ctxOfParts]
  rw [(flags_bits c).1, (flags_bits c).2]

/-- C1 witness: the amended round trip at a context with single-digit id
fields, where decode of encode restores the context exactly. -/
theorem C1_roundtrip_witness :
    make_context (make_headers
        { trace_id := "1", span_id := "2", parent_id := some "0",
          sampled := some true, debug := true, shared := false })
      = some
        { trace_id := "1", span_id := "2", parent_id := some "0",
          sampled := some true, debug := true, shared := false } :=
  C1_roundtrip _ "0" 1 2 0 rfl rfl (by decide) (by decide) rfl (by decide)
    (by decide) rfl (by decide) (by decide)

theorem takeWhile_all_append (p : Char → Bool) :
    ∀ (l r : List Char), (∀ x ∈ l, p x = true) →
      List.takeWhile p (l ++ r) = l ++ List.takeWhile p r := by
  intro l
  induction l with
  | nil => intro r _; rfl
  | cons x xs ih =>
    intro r hall
    have hx : p x = true := hall x (List.mem_cons_self x xs)
    simp only [List.cons_append, List.takeWhile_cons, hx, if_true]
    rw [ih r (fun y hy => hall y (List.mem_cons_of_mem x hy))]

theorem afterLastColon_append (x d : String) (hd2 : ':' ∉ d.data) :
    afterLastColon (x ++ ":" ++ d) = d := by
  unfold afterLastColon
  have hdata : (x ++ ":" ++ d).data = x.data ++ ':' :: d.data := by
    simp [String.data_append, colon_string_data]
  rw [hdata]
  rw [List.reverse_append, List.reverse_cons, List.append_assoc,
    List.singleton_append]
  rw [takeWhile_all_append _ d.data.reverse (':' :: x.data.reverse)
    (fun y hy => by
      have hyd : y ∈ d.data := List.mem_reverse.mp hy
      have : ¬y = ':' := fun h => hd2 (h ▸ hyd)
      simp [this])]
  have hstop : List.takeWhile (fun ch => ch != ':') (':' :: x.data.reverse)
      = [] := by simp [List.takeWhile_cons]
  rw [hstop]
  simp

/-- C5: flag bitmask independence on encode: the field after the last
colon of the emitted uber-trace-id value is the hex digit 3 when both
sampled and debug are truthy, 1 for sampled only, 2 for debug only, and
0 when neither holds (bit 1 set iff sampled, bit 2 set iff debug). -/
theorem C5_flag_bits (c : BaseTraceContext) :
    afterLastColon (make_trace_id c)
      = (if pyTruthy c.sampled then (if c.debug then "3" else "1")
         else (if c.debug then "2" else "0")) := by
  unfold make_trace_id
  cases hd : c.debug <;> cases hsm : pyTruthy c.sampled
  · have hfl : jaegerFlags c = 0 := by
      unfold jaegerFlags DEBUG_FLAG SAMPLED_FLAG; rw [hd, hsm]; decide
    rw [hfl]
    exact afterLastColon_append _ "0" (by decide)
  · have hfl : jaegerFlags c = 1 := by
      unfold jaegerFlags DEBUG_FLAG SAMPLED_FLAG; rw [hd, hsm]; decide
    rw [hfl]
    exact afterLastColon_append _ "1" (by decide)
  · have hfl : jaegerFlags c = 2 := by
      unfold jaegerFlags DEBUG_FLAG SAMPLED_FLAG; rw [hd, hsm]; decide
    rw [hfl]
    exact afterLastColon_append _ "2" (by decide)
  · have hfl : jaegerFlags c = 3 := by
      unfold jaegerFlags DEBUG_FLAG SAMPLED_FLAG; rw [hd, hsm]; decide
    rw [hfl]
    exact afterLastColon_append _ "3" (by decide)

/-- C6: concrete scenario: decode of the value 1:2:0:3 yields the context
with ids 1, 2, 0, sampled and debug true, shared false, and encode of
that very context returns exactly the original single-entry mapping. -/
theorem C6_concrete :
    make_context [("uber-trace-id", "1:2:0:3")]
      = some
        { trace_id := "1", span_id := "2", parent_id := some "0",
          sampled := some true, debug := true, shared := false } ∧
    make_headers
        { trace_id := "1", span_id := "2", parent_id := some "0",
          sampled := some true, debug := true, shared := false }
      = [("uber-trace-id", "1:2:0:3")] := by
  decide

/-- C7 counterexample: contexts are constructed without validation, so a
context whose trace_id itself contains a colon encodes to a value with
more than 3 colons, against the claimed exact-3-colons shape. -/
theorem C7_counterexample :
    make_headers
        { trace_id := "a:b", span_id := "1", parent_id := some "0",
          sampled := some false, debug := false, shared := false }
      = [("uber-trace-id", "a:b:1:0:0")] ∧
    colonCount "a:b:1:0:0" ≠ 3 := by
  decide

/-- C7 amended: encode is total and returns exactly one entry, key
uber-trace-id, value the four fields joined by colons; the value carries
3 separator colons plus however many colons the unvalidated id fields
themselves contain, hence exactly 3 for colon-free fields. -/
theorem C7_encode_shape (c : BaseTraceContext) :
    make_headers c = [(TRACE_ID_HEADER, make_trace_id c)] ∧
    colonCount (make_trace_id c)
      = 3 + colonCount c.trace_id + colonCount c.span_id
          + colonCount (pyStrOpt c.parent_id) := by
  refine ⟨rfl, ?_⟩
  have hflc : (toString (jaegerFlags c)).data.count ':' = 0 := by
    have h3 := jaegerFlags_le c
    have : ∀ fl : Nat, fl ≤ 3 → (toString fl).data.count ':' = 0 := by
      intro fl hfl
      interval_cases fl <;> decide
    exact this _ h3
  unfold colonCount make_trace_id
  simp only [String.data_append, colon_string_data, List.count_append]
  rw [hflc]
  have hone : List.count ':' [':'] = 1 := by decide
  rw [hone]
  omega

/-- C8: case-insensitive header lookup: decoding a mapping whose single
key lowercases to uber-trace-id gives the same result as the lowercase
key, for every value. -/
theorem C8_case_insensitive (k v : String) (hk : pyLower k = TRACE_ID_HEADER) :
    make_context [(k, v)] = make_context [(TRACE_ID_HEADER, v)] := by
  unfold make_context
  have h1 : lowerKeys [(k, v)] = [(TRACE_ID_HEADER, v)] := by
    simp [lowerKeys, hk]
  have h2 : lowerKeys [(TRACE_ID_HEADER, v)] = [(TRACE_ID_HEADER, v)] := by
    simp [lowerKeys, trace_header_lower]
  rw [h1, h2]

/-- C8 witness: the capitalised Uber-Trace-Id key decodes identically to
the lowercase one on a well-formed value. -/
theorem C8_case_insensitive_witness :
    make_context [("Uber-Trace-Id", "1:2:0:1")]
      = make_context [("uber-trace-id", "1:2:0:1")] :=
  C8_case_insensitive "Uber-Trace-Id" "1:2:0:1" (by decide)

/-- C9: the dummy codec ignores its input: decode returns the fixed dummy
context with sampled the caller-supplied flag (defaulting to true), and
encode returns the empty mapping. -/
theorem C9_dummy (h : Headers) (s : Bool) :
    dummy_make_context h s
      = { trace_id := "dummy-trace-id", span_id := "dummy-span-id",
          parent_id := some "dummy-parent-id", sampled := some s,
          debug := false, shared := false } ∧
    dummy_make_context_default h = dummy_make_context h true ∧
    dummy_make_headers = ([] : Headers) :=
  ⟨rfl, rfl, rfl⟩

/-- C10: lenient hex parsing: int(s, 16) also accepts an 0X prefix, a
leading sign and surrounding whitespace, so a header value outside the
documented wire grammar still decodes; the ids parse to 1, 2 and 3. -/
theorem C10_lenient_hex :
    make_context [("uber-trace-id", "0X1:+2: 3 :1")]
      = some
        { trace_id := "1", span_id := "2", parent_id := some "3",
          sampled := some true, debug := false, shared := false } ∧
    pyIntHex "0X1" = some 1 ∧ pyIntHex "+2" = some 2 ∧
    pyIntHex " 3 " = some 3 := by
  decide

end AiozipkinSpec
